import Mathlib

/-!
Shallow embedding of the bounded-concurrency admission gate of
rust-NaiveSempaphore. The repository contains two variants of the same
primitive:

* src/naive_semaphore/src/naive_semaphore.rs — the counter is an
  `AtomicUsize` wrapped in a `Counter` struct;
* src/simple_semaphore/src/simple_semaphore.rs — the counter is a
  `Mutex<usize>`.

Both expose `new`, `current_count`, `release_one` and `wait` on a struct
named `NaiveSemaphore` with fields `max : usize`, `is_locked : Mutex<bool>`,
`waiter : Condvar` and the counter `current`. Each variant is embedded in
its own namespace, with each public operation as an atomic state
transformer over the record of the struct's fields. The counter is
embedded as `Int` so that a decrement below zero would be visible in the
model (the `current > 0` guard in `release_one` is what keeps the `usize`
subtraction away from its wrap-around, which is proved below). The
`Condvar` field `waiter` holds no data of its own; its `notify_one` calls
are exposed as the second component of `release_one` (the number of
signals sent), and the parking of a `wait` caller is the enabledness guard
of the step relations further down.
-/

namespace naive_semaphore

/-- State of `NaiveSemaphore` in naive_semaphore.rs: `max: usize`,
`is_locked: Mutex<bool>`, and `current: Counter` (an `AtomicUsize`),
embedded as `Int`. -/
structure NaiveSemaphore where
  max : Nat
  is_locked : Bool
  current : Int
deriving Repr, DecidableEq

/-- `NaiveSemaphore::new(max)`: counter at 0, flag unlocked. -/
def NaiveSemaphore.new (max : Nat) : NaiveSemaphore :=
  { max := max, current := 0, is_locked := false }

/-- `NaiveSemaphore::current_count()`: reads the counter. -/
def current_count (s : NaiveSemaphore) : Int :=
  s.current

/-- `NaiveSemaphore::release_one()` as an atomic state transformer.
The second component counts the `notify_one` calls made (0 or 1).
Source: read the counter; if `current >= 1`, lock the flag, clear it and
signal once when it was set, then decrement the counter. -/
def release_one (s : NaiveSemaphore) : NaiveSemaphore × Nat :=
  if 1 ≤ s.current then
    if s.is_locked then
      ({ s with is_locked := false, current := s.current - 1 }, 1)
    else
      ({ s with current := s.current - 1 }, 0)
  else
    (s, 0)

/-- `NaiveSemaphore::wait()` as an atomic state transformer, describing the
effect once the caller proceeds past the (possible) condition-variable
wait: increment the counter, then set the flag when the new value reaches
`max` (otherwise the flag is left as found). Blocking while the flag is
set is the enabledness guard of the step relations below. -/
def wait (s : NaiveSemaphore) : NaiveSemaphore :=
  let s1 : NaiveSemaphore := { s with current := s.current + 1 }
  if (s1.max : Int) ≤ s1.current then { s1 with is_locked := true } else s1

end naive_semaphore

namespace simple_semaphore

/-- State of `NaiveSemaphore` in simple_semaphore.rs: `current: Mutex<usize>`
(embedded as `Int`), `max: usize`, `is_locked: Mutex<bool>`. -/
structure NaiveSemaphore where
  current : Int
  max : Nat
  is_locked : Bool
deriving Repr, DecidableEq

/-- `NaiveSemaphore::new(max)`: counter at 0, flag unlocked. -/
def NaiveSemaphore.new (max : Nat) : NaiveSemaphore :=
  { max := max, current := 0, is_locked := false }

/-- `NaiveSemaphore::current_count()`: lock and clone the counter. -/
def current_count (s : NaiveSemaphore) : Int :=
  s.current

/-- `NaiveSemaphore::release_one()` as an atomic state transformer (the
whole body holds the `current` mutex). The second component counts the
`notify_one` calls made (0 or 1). Source: if `*current > 0`, lock the
flag, clear it and signal once when it was set, then `*current -= 1`. -/
def release_one (s : NaiveSemaphore) : NaiveSemaphore × Nat :=
  if 0 < s.current then
    if s.is_locked then
      ({ s with is_locked := false, current := s.current - 1 }, 1)
    else
      ({ s with current := s.current - 1 }, 0)
  else
    (s, 0)

/-- `NaiveSemaphore::wait()` as an atomic state transformer, describing the
effect once the caller proceeds past the not-full check (and possible
condition-variable wait) and drops the flag lock: `*current += 1`, then
set the flag when the new value reaches `max`. -/
def wait (s : NaiveSemaphore) : NaiveSemaphore :=
  let s1 : NaiveSemaphore := { s with current := s.current + 1 }
  if (s1.max : Int) ≤ s1.current then { s1 with is_locked := true } else s1

end simple_semaphore

/-- Field-for-field translation between the two variants' states (they hold
the same data, declared in a different order). -/
def toSimple (s : naive_semaphore.NaiveSemaphore) : simple_semaphore.NaiveSemaphore :=
  { current := s.current, max := s.max, is_locked := s.is_locked }

/-- Configuration for the disciplined atomic-step interleaving model:
the gate together with `pending`, the number of callers that have been
admitted by `wait()` and have not yet run their paired `release_one()`. -/
structure SysState where
  gate : naive_semaphore.NaiveSemaphore
  pending : Nat
deriving Repr, DecidableEq

/-- Disciplined atomic-step relation: a `wait()` step fires only when the
full flag is false (a caller seeing the flag set parks on the condition
variable instead, which here is simply not being enabled), and a
`release_one()` step fires only in a caller that was previously admitted
(each caller pairs exactly one `wait()` with exactly one later
`release_one()`). Each operation's body runs as a single atomic step. -/
inductive SysStep : SysState → SysState → Prop
  | wait (s : SysState) (h : s.gate.is_locked = false) :
      SysStep s { gate := naive_semaphore.wait s.gate, pending := s.pending + 1 }
  | release (s : SysState) (h : 1 ≤ s.pending) :
      SysStep s { gate := (naive_semaphore.release_one s.gate).1, pending := s.pending - 1 }

/-- Unrestricted atomic-step relation: `wait()` still fires only when the
full flag is false (otherwise the caller blocks), but `release_one()` may
fire at any time — in particular more often than `wait()` was called. -/
inductive FreeStep : naive_semaphore.NaiveSemaphore → naive_semaphore.NaiveSemaphore → Prop
  | wait (s : naive_semaphore.NaiveSemaphore) (h : s.is_locked = false) :
      FreeStep s (naive_semaphore.wait s)
  | release (s : naive_semaphore.NaiveSemaphore) :
      FreeStep s (naive_semaphore.release_one s).1

/-- Phase of a worker thread in the fine-grained model of
simple_semaphore.rs: `ready` (about to run the not-full check), `passed`
(saw the flag false and dropped the flag lock, about to increment),
`admitted` (past `wait()`), `done` (ran `release_one()`). -/
inductive Phase where
  | ready
  | passed
  | admitted
  | done
deriving Repr, DecidableEq

/-- Configuration of the fine-grained interleaving model: the gate plus
one phase per worker thread. -/
structure FineState where
  gate : simple_semaphore.NaiveSemaphore
  threads : List Phase
deriving Repr, DecidableEq

/-- Fine-grained small-step semantics of simple_semaphore.rs. In the
source, `wait()` is two separate critical sections: the not-full check
(under the `is_locked` mutex, ending with `drop(locked)`) and the
increment-plus-flag-update (under the `current` mutex), so they are two
steps here; `check` only fires when the flag is observed false (a thread
seeing it true parks and, once signalled, proceeds without re-checking —
the woken thread is again in the `passed` phase, so the `passed → incr`
step also covers that path). The body of `release_one()` holds the
`current` mutex throughout and is one step. The gate effect of `incr` is
exactly the atomic `wait` transformer, whose guard has already been
consumed by `check`. -/
inductive FineStep : FineState → FineState → Prop
  | check (s : FineState) (i : Nat) (hp : s.threads[i]? = some Phase.ready)
      (hl : s.gate.is_locked = false) :
      FineStep s { gate := s.gate, threads := s.threads.set i Phase.passed }
  | incr (s : FineState) (i : Nat) (hp : s.threads[i]? = some Phase.passed) :
      FineStep s { gate := simple_semaphore.wait s.gate,
                   threads := s.threads.set i Phase.admitted }
  | release (s : FineState) (i : Nat) (hp : s.threads[i]? = some Phase.admitted) :
      FineStep s { gate := (simple_semaphore.release_one s.gate).1,
                   threads := s.threads.set i Phase.done }

/-- C8: a freshly constructed gate (either variant) has counter 0 — so
`current_count()` returns 0 before any `wait` — and the full flag false:
the OPEN state. -/
theorem claim_C8_initial_state (m : Nat) :
    (naive_semaphore.NaiveSemaphore.new m).current = 0 ∧
    (naive_semaphore.NaiveSemaphore.new m).is_locked = false ∧
    (naive_semaphore.NaiveSemaphore.new m).max = m ∧
    naive_semaphore.current_count (naive_semaphore.NaiveSemaphore.new m) = 0 ∧
    (simple_semaphore.NaiveSemaphore.new m).current = 0 ∧
    (simple_semaphore.NaiveSemaphore.new m).is_locked = false ∧
    (simple_semaphore.NaiveSemaphore.new m).max = m ∧
    simple_semaphore.current_count (simple_semaphore.NaiveSemaphore.new m) = 0 :=
  ⟨rfl, rfl, rfl, rfl, rfl, rfl, rfl, rfl⟩

/-- C10: `new(0)` is accepted without any fail-fast check (it just builds
the state), and on the resulting gate the first `wait()` — the flag being
initially false — still admits the caller: the counter becomes 1,
strictly exceeding `max = 0`, and the full flag is set. The capacity
bound `current ≤ max` therefore fails for `max = 0`, in both variants. -/
theorem claim_C10_zero_capacity :
    naive_semaphore.NaiveSemaphore.new 0 =
      { max := 0, is_locked := false, current := 0 } ∧
    (naive_semaphore.NaiveSemaphore.new 0).is_locked = false ∧
    (naive_semaphore.wait (naive_semaphore.NaiveSemaphore.new 0)).current = 1 ∧
    (naive_semaphore.wait (naive_semaphore.NaiveSemaphore.new 0)).is_locked = true ∧
    ¬ (naive_semaphore.wait (naive_semaphore.NaiveSemaphore.new 0)).current ≤
      ((naive_semaphore.wait (naive_semaphore.NaiveSemaphore.new 0)).max : Int) ∧
    simple_semaphore.NaiveSemaphore.new 0 =
      { current := 0, max := 0, is_locked := false } ∧
    (simple_semaphore.NaiveSemaphore.new 0).is_locked = false ∧
    (simple_semaphore.wait (simple_semaphore.NaiveSemaphore.new 0)).current = 1 ∧
    (simple_semaphore.wait (simple_semaphore.NaiveSemaphore.new 0)).is_locked = true ∧
    ¬ (simple_semaphore.wait (simple_semaphore.NaiveSemaphore.new 0)).current ≤
      ((simple_semaphore.wait (simple_semaphore.NaiveSemaphore.new 0)).max : Int) := by
  decide

/-- C3: postcondition of `wait()` taken as one atomic step from a state
whose full flag is false (both variants): the counter goes up by exactly
1, the flag ends up true exactly when the new count reaches or exceeds
`max`, `max` is unchanged, and when the new count stays below `max` the
flag is unchanged (still false). -/
theorem claim_C3_wait_postcondition (s : naive_semaphore.NaiveSemaphore)
    (t : simple_semaphore.NaiveSemaphore)
    (hs : s.is_locked = false) (ht : t.is_locked = false) :
    ((naive_semaphore.wait s).current = s.current + 1 ∧
      ((naive_semaphore.wait s).is_locked = true ↔ (s.max : Int) ≤ s.current + 1) ∧
      (naive_semaphore.wait s).max = s.max ∧
      (s.current + 1 < (s.max : Int) → (naive_semaphore.wait s).is_locked = s.is_locked)) ∧
    ((simple_semaphore.wait t).current = t.current + 1 ∧
      ((simple_semaphore.wait t).is_locked = true ↔ (t.max : Int) ≤ t.current + 1) ∧
      (simple_semaphore.wait t).max = t.max ∧
      (t.current + 1 < (t.max : Int) → (simple_semaphore.wait t).is_locked = t.is_locked)) := by
  simp only [naive_semaphore.wait, simple_semaphore.wait]
  constructor <;> (split_ifs with h <;> simp_all)

/-- Witness for C3 at a freshly constructed gate with `max = 2`. -/
theorem claim_C3_witness :
    (naive_semaphore.NaiveSemaphore.new 2).is_locked = false ∧
    (simple_semaphore.NaiveSemaphore.new 2).is_locked = false ∧
    (naive_semaphore.wait (naive_semaphore.NaiveSemaphore.new 2)).current =
      (naive_semaphore.NaiveSemaphore.new 2).current + 1 :=
  ⟨rfl, rfl,
    (claim_C3_wait_postcondition (naive_semaphore.NaiveSemaphore.new 2)
      (simple_semaphore.NaiveSemaphore.new 2) rfl rfl).1.1⟩

/-- C4: postcondition of `release_one()` from a state whose counter is at
least 1 (both variants): the counter goes down by exactly 1, the flag ends
up false, exactly one `notify_one` signal is sent iff the flag was true,
no signal is sent (and the flag is unchanged) when it was false, and `max`
is unchanged. -/
theorem claim_C4_release_postcondition (s : naive_semaphore.NaiveSemaphore)
    (t : simple_semaphore.NaiveSemaphore)
    (hs : 1 ≤ s.current) (ht : 1 ≤ t.current) :
    ((naive_semaphore.release_one s).1.current = s.current - 1 ∧
      (naive_semaphore.release_one s).1.is_locked = false ∧
      ((naive_semaphore.release_one s).2 = 1 ↔ s.is_locked = true) ∧
      (s.is_locked = false → (naive_semaphore.release_one s).2 = 0 ∧
        (naive_semaphore.release_one s).1.is_locked = s.is_locked) ∧
      (naive_semaphore.release_one s).1.max = s.max) ∧
    ((simple_semaphore.release_one t).1.current = t.current - 1 ∧
      (simple_semaphore.release_one t).1.is_locked = false ∧
      ((simple_semaphore.release_one t).2 = 1 ↔ t.is_locked = true) ∧
      (t.is_locked = false → (simple_semaphore.release_one t).2 = 0 ∧
        (simple_semaphore.release_one t).1.is_locked = t.is_locked) ∧
      (simple_semaphore.release_one t).1.max = t.max) := by
  simp only [naive_semaphore.release_one, simple_semaphore.release_one]
  constructor <;> (split_ifs with h1 <;> simp_all <;> omega)

/-- Witness for C4 at a gate with `max = 2` after one admission. -/
theorem claim_C4_witness :
    1 ≤ (naive_semaphore.wait (naive_semaphore.NaiveSemaphore.new 2)).current ∧
    1 ≤ (simple_semaphore.wait (simple_semaphore.NaiveSemaphore.new 2)).current ∧
    (naive_semaphore.release_one
      (naive_semaphore.wait (naive_semaphore.NaiveSemaphore.new 2))).1.current =
      (naive_semaphore.wait (naive_semaphore.NaiveSemaphore.new 2)).current - 1 :=
  ⟨by decide, by decide,
    (claim_C4_release_postcondition
      (naive_semaphore.wait (naive_semaphore.NaiveSemaphore.new 2))
      (simple_semaphore.wait (simple_semaphore.NaiveSemaphore.new 2))
      (by decide) (by decide)).1.1⟩

/-- C5: `release_one()` on an empty gate (counter 0) is a complete no-op in
both variants: the state is returned unchanged and no `notify_one` signal
is sent (and the operation is total, so no error is raised). -/
theorem claim_C5_release_empty_noop (s : naive_semaphore.NaiveSemaphore)
    (t : simple_semaphore.NaiveSemaphore)
    (hs : s.current = 0) (ht : t.current = 0) :
    naive_semaphore.release_one s = (s, 0) ∧
    simple_semaphore.release_one t = (t, 0) := by
  simp only [naive_semaphore.release_one, simple_semaphore.release_one]
  constructor <;> (split_ifs <;> simp_all)

/-- Witness for C5 at freshly constructed gates with `max = 3`. -/
theorem claim_C5_witness :
    (naive_semaphore.NaiveSemaphore.new 3).current = 0 ∧
    (simple_semaphore.NaiveSemaphore.new 3).current = 0 ∧
    naive_semaphore.release_one (naive_semaphore.NaiveSemaphore.new 3) =
      (naive_semaphore.NaiveSemaphore.new 3, 0) :=
  ⟨rfl, rfl,
    (claim_C5_release_empty_noop (naive_semaphore.NaiveSemaphore.new 3)
      (simple_semaphore.NaiveSemaphore.new 3) rfl rfl).1⟩

/-- C9: the two implementations are equivalent as atomic state
transformers, under the field-for-field translation `toSimple`: `new`,
`current_count`, `wait` and `release_one` (state part and number of
signals alike) all commute with the translation. -/
theorem claim_C9_variants_equivalent (g : naive_semaphore.NaiveSemaphore) :
    (∀ m : Nat,
      toSimple (naive_semaphore.NaiveSemaphore.new m) = simple_semaphore.NaiveSemaphore.new m) ∧
    simple_semaphore.current_count (toSimple g) = naive_semaphore.current_count g ∧
    toSimple (naive_semaphore.wait g) = simple_semaphore.wait (toSimple g) ∧
    toSimple (naive_semaphore.release_one g).1 = (simple_semaphore.release_one (toSimple g)).1 ∧
    (naive_semaphore.release_one g).2 = (simple_semaphore.release_one (toSimple g)).2 := by
  refine ⟨fun m => rfl, rfl, ?_, ?_, ?_⟩ <;>
    simp only [naive_semaphore.wait, simple_semaphore.wait, naive_semaphore.release_one,
      simple_semaphore.release_one, toSimple] <;>
    split_ifs <;> first
      | rfl
      | (exfalso; omega)

/-- Field lemma: `wait` preserves `max`. -/
theorem wait_max (g : naive_semaphore.NaiveSemaphore) :
    (naive_semaphore.wait g).max = g.max := by
  simp only [naive_semaphore.wait]
  split_ifs <;> rfl

/-- Field lemma: `wait` increments the counter by one. -/
theorem wait_current (g : naive_semaphore.NaiveSemaphore) :
    (naive_semaphore.wait g).current = g.current + 1 := by
  simp only [naive_semaphore.wait]
  split_ifs <;> rfl

/-- Field lemma: after `wait` the flag is clear exactly when it was clear
before and the new count is still below `max`. -/
theorem wait_is_locked_false (g : naive_semaphore.NaiveSemaphore) :
    (naive_semaphore.wait g).is_locked = false ↔
      g.current + 1 < (g.max : Int) ∧ g.is_locked = false := by
  simp only [naive_semaphore.wait]
  split_ifs with h <;> simp <;> omega

/-- Field lemma: `release_one` preserves `max`. -/
theorem release_one_max (g : naive_semaphore.NaiveSemaphore) :
    (naive_semaphore.release_one g).1.max = g.max := by
  simp only [naive_semaphore.release_one]
  split_ifs <;> rfl

/-- Field lemma: `release_one` decrements the counter exactly when it was
at least one. -/
theorem release_one_current (g : naive_semaphore.NaiveSemaphore) :
    (naive_semaphore.release_one g).1.current =
      if 1 ≤ g.current then g.current - 1 else g.current := by
  simp only [naive_semaphore.release_one]
  split_ifs <;> rfl

/-- Field lemma: `release_one` leaves the flag clear whenever the counter
was at least one, and does not touch it otherwise. -/
theorem release_one_is_locked (g : naive_semaphore.NaiveSemaphore) :
    (naive_semaphore.release_one g).1.is_locked =
      if 1 ≤ g.current then false else g.is_locked := by
  simp only [naive_semaphore.release_one]
  split_ifs <;> simp_all

/-- Inductive invariant of the disciplined model: the gate keeps its
capacity, the counter mirrors the number of admitted-but-unreleased
callers, it never exceeds `max`, and an unset flag means there is room. -/
theorem sysStep_invariant (m : Nat) (hm : 0 < m) (s : SysState)
    (h : Relation.ReflTransGen SysStep
      { gate := naive_semaphore.NaiveSemaphore.new m, pending := 0 } s) :
    s.gate.max = m ∧ s.gate.current = (s.pending : Int) ∧
    s.gate.current ≤ (m : Int) ∧
    (s.gate.is_locked = false → s.gate.current < (m : Int)) ∧
    (s.pending = 0 → s.gate.is_locked = false) := by
  induction h with
  | refl =>
    refine ⟨rfl, rfl, ?_, ?_, fun _ => rfl⟩
    · show (0 : Int) ≤ (m : Int)
      omega
    · intro _
      show (0 : Int) < (m : Int)
      omega
  | @tail b c hab hbc ih =>
    obtain ⟨hmax, hcnt, hle, hlt, hflag⟩ := ih
    cases hbc with
    | wait hb =>
      have hlt' := hlt hb
      refine ⟨?_, ?_, ?_, ?_, ?_⟩
      · show (naive_semaphore.wait b.gate).max = m
        rw [wait_max, hmax]
      · show (naive_semaphore.wait b.gate).current = ((b.pending + 1 : Nat) : Int)
        rw [wait_current]
        omega
      · show (naive_semaphore.wait b.gate).current ≤ (m : Int)
        rw [wait_current]
        omega
      · intro hfl
        show (naive_semaphore.wait b.gate).current < (m : Int)
        rw [wait_current]
        have hroom := ((wait_is_locked_false b.gate).mp hfl).1
        rw [hmax] at hroom
        omega
      · intro h0
        exact absurd h0 (Nat.succ_ne_zero _)
    | release hb =>
      have hc1 : (1 : Int) ≤ b.gate.current := by
        rw [hcnt]
        exact_mod_cast hb
      refine ⟨?_, ?_, ?_, ?_, ?_⟩
      · show (naive_semaphore.release_one b.gate).1.max = m
        rw [release_one_max, hmax]
      · show (naive_semaphore.release_one b.gate).1.current = ((b.pending - 1 : Nat) : Int)
        rw [release_one_current, if_pos hc1]
        omega
      · show (naive_semaphore.release_one b.gate).1.current ≤ (m : Int)
        rw [release_one_current, if_pos hc1]
        omega
      · intro _
        show (naive_semaphore.release_one b.gate).1.current < (m : Int)
        rw [release_one_current, if_pos hc1]
        omega
      · intro _
        show (naive_semaphore.release_one b.gate).1.is_locked = false
        rw [release_one_is_locked, if_pos hc1]

/-- C1: capacity bound under disciplined use. For every `max = m > 0`, in
the atomic-step model where each `wait()` fires only when the full flag is
false and each caller pairs one `wait()` with one later `release_one()`
(any number of callers), every reachable state has
`current_count() ≤ m`. -/
theorem claim_C1_capacity_bound (m : Nat) (hm : 0 < m) (s : SysState)
    (h : Relation.ReflTransGen SysStep
      { gate := naive_semaphore.NaiveSemaphore.new m, pending := 0 } s) :
    naive_semaphore.current_count s.gate ≤ (m : Int) :=
  (sysStep_invariant m hm s h).2.2.1

/-- Witness for C1: `m = 1`, one caller admitted by a single `wait` step. -/
theorem claim_C1_witness :
    0 < 1 ∧
    naive_semaphore.current_count
      (naive_semaphore.wait (naive_semaphore.NaiveSemaphore.new 1)) ≤ (1 : Int) :=
  ⟨Nat.one_pos,
    claim_C1_capacity_bound 1 Nat.one_pos
      { gate := naive_semaphore.wait (naive_semaphore.NaiveSemaphore.new 1), pending := 1 }
      (Relation.ReflTransGen.single
        (SysStep.wait { gate := naive_semaphore.NaiveSemaphore.new 1, pending := 0 } rfl))⟩

/-- C7: paired use round-trips to zero. For every `max = m ≥ 1`, any state
of the disciplined atomic-step model reached with as many `release_one()`
steps as `wait()` steps (each release paired with an earlier wait, i.e.
`pending = 0`) has `current_count() = 0` and the full flag false. -/
theorem claim_C7_paired_round_trip (m : Nat) (hm : 1 ≤ m) (s : SysState)
    (h : Relation.ReflTransGen SysStep
      { gate := naive_semaphore.NaiveSemaphore.new m, pending := 0 } s)
    (hp : s.pending = 0) :
    naive_semaphore.current_count s.gate = 0 ∧ s.gate.is_locked = false := by
  obtain ⟨-, hcnt, -, -, hflag⟩ := sysStep_invariant m hm s h
  refine ⟨?_, hflag hp⟩
  show s.gate.current = 0
  rw [hcnt, hp]
  rfl

/-- Witness for C7: `m = 1`, one `wait` step followed by its paired
`release_one` step brings the gate back to counter 0, flag false. -/
theorem claim_C7_witness :
    1 ≤ 1 ∧
    naive_semaphore.current_count
      (naive_semaphore.release_one
        (naive_semaphore.wait (naive_semaphore.NaiveSemaphore.new 1))).1 = 0 ∧
    (naive_semaphore.release_one
      (naive_semaphore.wait (naive_semaphore.NaiveSemaphore.new 1))).1.is_locked = false :=
  ⟨le_refl 1,
    claim_C7_paired_round_trip 1 (le_refl 1)
      { gate := (naive_semaphore.release_one
          (naive_semaphore.wait (naive_semaphore.NaiveSemaphore.new 1))).1, pending := 0 }
      (Relation.ReflTransGen.tail
        (Relation.ReflTransGen.single
          (SysStep.wait { gate := naive_semaphore.NaiveSemaphore.new 1, pending := 0 } rfl))
        (SysStep.release
          { gate := naive_semaphore.wait (naive_semaphore.NaiveSemaphore.new 1), pending := 1 }
          (le_refl 1)))
      rfl⟩

/-- C6: the counter never underflows. Along every sequence of atomic
`wait()` and `release_one()` steps from a fresh gate — pairing not
required, so `release_one()` may run more often than `wait()` — the
counter stays non-negative; moreover the decrement inside `release_one()`
only ever changes the counter from a state where it is at least 1, so the
`usize` subtraction's wrap-around branch is unreachable. -/
theorem claim_C6_no_underflow (m : Nat) (s : naive_semaphore.NaiveSemaphore)
    (h : Relation.ReflTransGen FreeStep (naive_semaphore.NaiveSemaphore.new m) s) :
    0 ≤ s.current ∧
    ((naive_semaphore.release_one s).1.current ≠ s.current → 1 ≤ s.current) := by
  have hnn : 0 ≤ s.current := by
    induction h with
    | refl => exact le_refl 0
    | @tail b c hab hbc ih =>
      cases hbc with
      | wait hb =>
        rw [wait_current]
        omega
      | release =>
        rw [release_one_current]
        split_ifs <;> omega
  refine ⟨hnn, fun hne => ?_⟩
  by_contra hlt
  rw [release_one_current, if_neg hlt] at hne
  exact hne rfl

/-- Witness for C6 at a fresh gate with `max = 2` (empty step sequence). -/
theorem claim_C6_witness :
    0 ≤ (naive_semaphore.NaiveSemaphore.new 2).current ∧
    ((naive_semaphore.release_one (naive_semaphore.NaiveSemaphore.new 2)).1.current ≠
        (naive_semaphore.NaiveSemaphore.new 2).current →
      1 ≤ (naive_semaphore.NaiveSemaphore.new 2).current) :=
  claim_C6_no_underflow 2 (naive_semaphore.NaiveSemaphore.new 2) Relation.ReflTransGen.refl

/-- C2: transient overshoot under races. Because the not-full check and
the increment-then-compare of `wait()` are separate critical sections,
there is a concurrent interleaving — two threads both pass the check
before either increments, here with `max = 1` — whose reachable state has
strictly more than `max` callers admitted at once: the counter read by
`current_count()` exceeds `max`, and the number of threads past `wait()`
exceeds `max`. -/
theorem claim_C2_transient_overshoot :
    ∃ s : FineState,
      Relation.ReflTransGen FineStep
        { gate := simple_semaphore.NaiveSemaphore.new 1,
          threads := [Phase.ready, Phase.ready] } s ∧
      (s.gate.max : Int) < simple_semaphore.current_count s.gate ∧
      s.gate.max < s.threads.count Phase.admitted := by
  refine ⟨{ gate := simple_semaphore.wait
              (simple_semaphore.wait (simple_semaphore.NaiveSemaphore.new 1)),
            threads := [Phase.admitted, Phase.admitted] }, ?_, by decide, by decide⟩
  have h1 := FineStep.check
    { gate := simple_semaphore.NaiveSemaphore.new 1,
      threads := [Phase.ready, Phase.ready] } 0 (by decide) (by decide)
  have h2 := FineStep.check
    { gate := simple_semaphore.NaiveSemaphore.new 1,
      threads := [Phase.passed, Phase.ready] } 1 (by decide) (by decide)
  have h3 := FineStep.incr
    { gate := simple_semaphore.NaiveSemaphore.new 1,
      threads := [Phase.passed, Phase.passed] } 0 (by decide)
  have h4 := FineStep.incr
    { gate := simple_semaphore.wait (simple_semaphore.NaiveSemaphore.new 1),
      threads := [Phase.admitted, Phase.passed] } 1 (by decide)
  exact Relation.ReflTransGen.tail
    (Relation.ReflTransGen.tail
      (Relation.ReflTransGen.tail (Relation.ReflTransGen.single h1) h2) h3) h4
